import Mathlib

/-!
Formal model of the news ingestion / deduplication / selection pipeline of
the TelegramBOT repository, shallowly embedding `src/news_scraper.py`
(NewsTracker, NewsScraper.calculate_relevance_score,
get_single_relevant_article) and `src/bot.py` (check_similarity_to_recent_news,
flag_article_as_duplicate, verify_news_relevance, generate_channel_news).

Modelling conventions:
* Python strings are Lean strings; str.lower and str.upper are mapped
  per character (ASCII model of the case mapping); the substring operator
  `in` is contiguous-substring containment.
* Timestamps are integers counting days; datetime.now() is an explicit
  `now` parameter; the 7-day timedelta is the integer 7; a missing or
  unparseable ISO timestamp is `none`.
* The md5 fingerprint of the string title|url is modelled by that content
  string itself: md5 is a fixed deterministic function of it, and digest
  collisions are outside the model.
* Python dicts are association lists with dict insertion-order semantics
  (overwrite in place, append when the key is new).
* AI collaborator calls and network fetches are oracle inputs.  A call
  that raises is `AiOutcome.raises`; a returned text is
  `AiOutcome.returns` (the empty string doubles for Python None, both
  being falsy at every use site).
* Every score the code manipulates is a small dyadic rational, namely sums
  of 1.0 and 3.0, a 1.5 factor and a 15.0 cap, on which IEEE float
  arithmetic is exact, so scores are modelled by `Rat`.
* An exception that propagates out of a function is `Except.error`; a
  caught-and-logged exception yields `Except.ok` together with the log
  line that the handler prints.
-/

/-- ASCII model of Python str.lower. -/
def lowerStr (s : String) : String := String.mk (s.data.map Char.toLower)

/-- ASCII model of Python str.upper. -/
def upperStr (s : String) : String := String.mk (s.data.map Char.toUpper)

/-- Does the second char list occur at the head of the first? -/
def headMatches : List Char → List Char → Bool
  | _, [] => true
  | [], _ :: _ => false
  | c :: cs, d :: ds => c == d && headMatches cs ds

/-- Contiguous-sublist test on char lists. -/
def subList : List Char → List Char → Bool
  | [], need => need.isEmpty
  | c :: cs, need => headMatches (c :: cs) need || subList cs need

/-- Python `need in hay` on strings. -/
def strContains (hay need : String) : Bool := subList hay.data need.data

/-- Python whitespace (matched by str.strip and by the regex class backslash-s,
ASCII part). -/
def pyWs (c : Char) : Bool :=
  c == ' ' || c == '\t' || c == '\n' || c == '\r' ||
    c == Char.ofNat 11 || c == Char.ofNat 12

/-- Python str.strip() on a char list. -/
def stripChars (l : List Char) : List Char :=
  ((l.dropWhile pyWs).reverse.dropWhile pyWs).reverse

/-- Python str.strip(). -/
def pyStrip (s : String) : String := String.mk (stripChars s.data)

/-- Everything after the first colon: Python s.split with separator colon and
maxsplit 1, taking element 1 (use only when a colon is present). -/
def afterFirstColonChars : List Char → List Char
  | [] => []
  | c :: cs => if c == ':' then cs else afterFirstColonChars cs

/-- Python s.split(colon, 1)[1]. -/
def afterFirstColon (s : String) : String := String.mk (afterFirstColonChars s.data)

/-- ASCII decimal digit (regex class backslash-d, ASCII model). -/
def isDigitCh (c : Char) : Bool := decide (48 ≤ c.toNat) && decide (c.toNat ≤ 57)

/-- Maximal leading digit run (greedy one-or-more-digits group, before the
nonempty check). -/
def takeDigits : List Char → List Char
  | [] => []
  | c :: cs => if isDigitCh c then c :: takeDigits cs else []

/-- Python int() on a digit string. -/
def digitsToNat (l : List Char) : Nat := l.foldl (fun a c => a * 10 + (c.toNat - 48)) 0

/-- Match a literal at the head of the input, returning the remainder. -/
def dropLit : List Char → List Char → Option (List Char)
  | [], l => some l
  | _ :: _, [] => none
  | p :: ps, c :: cs => if c == p then dropLit ps cs else none

/-- Attempt the pattern SCORE: backslash-s* ( backslash-d+ ) at the current
position.  Greedy whitespace skipping is equivalent to backtracking here since
no whitespace char is a digit. -/
def scoreAt (l : List Char) : Option Nat :=
  match dropLit "SCORE:".data l with
  | none => none
  | some rest =>
      let ds := takeDigits (rest.dropWhile pyWs)
      if ds.isEmpty then none else some (digitsToNat ds)

/-- re.search for SCORE: backslash-s* ( backslash-d+ ): leftmost position at
which the whole pattern matches. -/
def searchScore : List Char → Option Nat
  | [] => none
  | c :: cs =>
      match scoreAt (c :: cs) with
      | some n => some n
      | none => searchScore cs

/-- The group (.+): one or more non-newline chars, greedy to the end of line. -/
def dotPlus (l : List Char) : Option (List Char) :=
  match l with
  | [] => none
  | c :: _ => if c == '\n' then none else some (l.takeWhile (fun d => !(d == '\n')))

/-- backslash-s* then (.+) with the regex engine backtracking: prefer the
longest whitespace run, fall back one char at a time. -/
def reasonTail : List Char → Option (List Char)
  | [] => none
  | c :: cs =>
      if pyWs c then
        match reasonTail cs with
        | some r => some r
        | none => dotPlus (c :: cs)
      else dotPlus (c :: cs)

/-- Attempt the pattern REASON: backslash-s* (.+) at the current position. -/
def reasonAt (l : List Char) : Option (List Char) :=
  match dropLit "REASON:".data l with
  | none => none
  | some rest => reasonTail rest

/-- re.search for REASON: backslash-s* (.+), group 1 stripped as the caller
does. -/
def searchReason : List Char → Option String
  | [] => none
  | c :: cs =>
      match reasonAt (c :: cs) with
      | some g => some (pyStrip (String.mk g))
      | none => searchReason cs

/-- A news article (NewsArticle in news_scraper.py): the fields the tracked
pipeline reads. -/
structure Article where
  title : String
  url : String
  source : String
  published : Option Int
  summary : String
  category : String
deriving DecidableEq

/-- NewsTracker.get_article_hash: md5 of title|url; the digest is modelled by
the digested content string (see header). -/
def get_article_hash (a : Article) : String := a.title ++ "|" ++ a.url

/-- One value of the posted_articles mapping.  An absent is_duplicate key is
modelled as `false` and an absent similarity_reason as `none`, matching every
read site (each one uses .get with that default). -/
structure TrackedRecord where
  title : String
  source : String
  posted_at : Option Int
  published_at : Option Int
  url : String
  category : String
  is_dup : Bool
  similarity_reason : Option String
deriving DecidableEq

/-- Python dict assignment d[k] = v: overwrite in place, else append. -/
def dictInsert (k : String) (v : TrackedRecord) :
    List (String × TrackedRecord) → List (String × TrackedRecord)
  | [] => [(k, v)]
  | (k0, v0) :: rest =>
      if k0 == k then (k0, v) :: rest else (k0, v0) :: dictInsert k v rest

/-- Python `k in d`. -/
def dictHasKey (k : String) : List (String × TrackedRecord) → Bool
  | [] => false
  | (k0, _) :: rest => k0 == k || dictHasKey k rest

/-- The shapes the backing file news_tracker.json can be in. -/
inductive TrackerFile where
  | missing
  | corrupt
  | legacy (hashes : List String)
  | modern (records : List (String × TrackedRecord))
deriving DecidableEq

/-- The duplicate/history store: the in-memory NewsTracker.posted_articles
dict together with the backing file.  bot.py writes the file directly while
news_scraper.py keeps its own in-memory copy, so the two are modelled
separately. -/
structure Store where
  mem : List (String × TrackedRecord)
  file : TrackerFile
deriving DecidableEq

/-- NewsTracker.is_duplicate: fingerprint membership in the in-memory dict. -/
def is_duplicate (s : Store) (a : Article) : Bool :=
  dictHasKey (get_article_hash a) s.mem

/-- NewsTracker.cleanup_old_entries: drop records strictly older than the
7-day cutoff; a record whose posted_at is missing or unparseable is dropped
exactly when the dict (scanned before any deletion) has more than 1000
entries. -/
def cleanup_old_entries (now : Int) (posted : List (String × TrackedRecord)) :
    List (String × TrackedRecord) :=
  posted.filter fun kv =>
    match kv.2.posted_at with
    | some t => decide (now - 7 ≤ t)
    | none => decide (posted.length ≤ 1000)

/-- The placeholder record built for one legacy fingerprint during migration
(title Legacy Article, source unknown, posted_at set to load time, no
published_at; keys absent from the legacy dict take their read-site
defaults). -/
def legacyRecord (now : Int) : TrackedRecord :=
  { title := "Legacy Article", source := "unknown", posted_at := some now,
    published_at := none, url := "", category := "unknown",
    is_dup := false, similarity_reason := none }

/-- NewsTracker.load_tracking_data: missing file and unreadable file both
yield the empty store; a bare fingerprint list is migrated to placeholder
records; cleanup_old_entries runs after a successful read. -/
def load_tracking_data (now : Int) (file : TrackerFile) :
    List (String × TrackedRecord) :=
  match file with
  | .missing => []
  | .corrupt => []
  | .legacy hashes =>
      cleanup_old_entries now
        (hashes.foldl (fun acc h => dictInsert h (legacyRecord now) acc) [])
  | .modern records => cleanup_old_entries now records

/-- Outcome of the raw open-and-json.dump performed by a write:
`Except.error` models an OSError raised by the filesystem. -/
abbrev FsWrite := Except String Unit

/-- NewsTracker.save_tracking_data: writes the in-memory dict to the file
inside try/except; a raised write error is caught, logged and absorbed, so
the caller always gets a normal return. -/
def save_tracking_data (w : FsWrite) (s : Store) :
    Except String (Store × List String) :=
  match w with
  | .ok _ => .ok ({ s with file := TrackerFile.modern s.mem }, [])
  | .error e => .ok (s, ["Error saving tracking data: " ++ e])

/-- The record NewsTracker.mark_as_posted stores. -/
def postedRecord (now : Int) (a : Article) : TrackedRecord :=
  { title := a.title, source := a.source, posted_at := some now,
    published_at := a.published, url := a.url, category := a.category,
    is_dup := false, similarity_reason := none }

/-- NewsTracker.mark_as_posted: insert the rich-metadata record into the
in-memory dict, then persist via save_tracking_data. -/
def mark_as_posted (now : Int) (w : FsWrite) (s : Store) (a : Article) :
    Except String (Store × List String) :=
  save_tracking_data w
    { s with mem := dictInsert (get_article_hash a) (postedRecord now a) s.mem }

/-- The record flag_article_as_duplicate stores. -/
def rejectedRecord (now : Int) (a : Article) (reason : String) : TrackedRecord :=
  { title := a.title, source := a.source, posted_at := some now,
    published_at := a.published, url := a.url, category := a.category,
    is_dup := true, similarity_reason := some reason }

/-- bot.py flag_article_as_duplicate: re-reads the backing file, adds the
flagged record and writes the file back, all inside one try/except that
absorbs every error.  The in-memory NewsTracker dict is not touched.  On a
legacy-shaped file the list-index assignment raises TypeError, which the
same handler absorbs, so nothing is written. -/
def flag_article_as_duplicate (now : Int) (w : FsWrite) (s : Store)
    (a : Article) (reason : String) : Except String (Store × List String) :=
  match s.file with
  | .corrupt => .ok (s, ["Error flagging duplicate: invalid JSON"])
  | .legacy _ => .ok (s, ["Error flagging duplicate: list indices must be integers"])
  | .missing =>
      match w with
      | .ok _ =>
          let rs2 := dictInsert (get_article_hash a) (rejectedRecord now a reason) []
          .ok ({ s with file := TrackerFile.modern rs2 }, [])
      | .error e => .ok (s, ["Error flagging duplicate: " ++ e])
  | .modern rs =>
      match w with
      | .ok _ =>
          let rs2 := dictInsert (get_article_hash a) (rejectedRecord now a reason) rs
          .ok ({ s with file := TrackerFile.modern rs2 }, [])
      | .error e => .ok (s, ["Error flagging duplicate: " ++ e])

/-- Extract the store from a normal return, keeping the old store on a
propagated error. -/
def exceptStore (dflt : Store) : Except String (Store × List String) → Store
  | .ok p => p.1
  | .error _ => dflt

/-- Did the call return normally (no exception propagated)? -/
def exceptIsOk : Except String (Store × List String) → Bool
  | .ok _ => true
  | .error _ => false

/-- mark_as_posted on the successful-write path, as a pure state update. -/
def markPostedOk (now : Int) (s : Store) (a : Article) : Store :=
  exceptStore s (mark_as_posted now (Except.ok ()) s a)

/-- flag_article_as_duplicate on the successful-write path, as a pure state
update. -/
def flagOk (now : Int) (s : Store) (a : Article) (reason : String) : Store :=
  exceptStore s (flag_article_as_duplicate now (Except.ok ()) s a reason)

/-- A markPosted or markRejected call, for stating history properties of the
store. -/
inductive StoreOp where
  | post (a : Article)
  | reject (a : Article) (reason : String)
deriving DecidableEq

/-- Run a sequence of store operations (successful-write path). -/
def runOps (now : Int) (s : Store) : List StoreOp → Store
  | [] => s
  | .post a :: rest => runOps now (markPostedOk now s a) rest
  | .reject a r :: rest => runOps now (flagOk now s a r) rest

/-- The price-speculation exclusion list of
NewsScraper.calculate_relevance_score, copied from the source. -/
def price_prediction_keywords : List String := [
  "price prediction", "price forecast", "price target",
  "price analysis", "technical analysis", "price outlook",
  "will reach", "could hit", "price could", "price may",
  "price estimate", "price projection", "price expectations",
  "bullish target", "bearish target", "resistance level",
  "support level", "fibonacci", "moving average", "rsi",
  "chart analysis", "trading signals", "buy signal", "sell signal"]

/-- RELEVANCE_KEYWORDS from news_scraper.py, copied from the source in
definition (equal to iteration) order. -/
def RELEVANCE_KEYWORDS : List (String × List String) := [
  ("rwa", [
    "real world asset", "rwa", "tokenization", "tokenized", "asset backed",
    "real estate token", "commodity token", "security token", "sto",
    "asset digitization", "blockchain asset", "defi asset", "traditional asset",
    "asset tokenization", "digital asset", "token asset", "backed token",
    "physical asset", "tangible asset", "tokenize", "fractionalized"]),
  ("gold", [
    "gold", "precious metal", "bullion", "gold price", "gold market",
    "gold etf", "gold mining", "gold reserve", "central bank gold",
    "gold futures", "spot gold", "gold backed", "gold standard",
    "gold coin", "gold bar", "gold investment", "gold rally",
    "gold demand", "gold supply", "xau", "troy ounce"]),
  ("partnerships", [
    "partnership", "collaboration", "integration", "announces", "teams up",
    "joint venture", "strategic alliance", "cooperation", "agreement",
    "deal", "merger", "acquisition", "investment", "launches with",
    "partners with", "alliance", "working together", "strategic partnership",
    "business partnership", "technology partnership"]),
  ("institutional", [
    "institutional", "bank", "financial institution", "corporate",
    "enterprise", "blackrock", "fidelity", "jpmorgan", "goldman sachs",
    "morgan stanley", "wells fargo", "visa", "mastercard", "paypal",
    "deutsche bank", "ubs", "credit suisse", "hsbc", "citigroup",
    "institutional adoption", "institutional investor", "wall street"]),
  ("defi", [
    "defi", "decentralized finance", "yield farming", "liquidity pool",
    "dex", "decentralized exchange", "lending protocol", "borrowing",
    "staking", "governance token", "dao", "smart contract",
    "automated market maker", "amm", "tvl", "total value locked"]),
  ("regulation", [
    "regulation", "regulatory", "sec", "cftc", "compliance", "license",
    "approval", "framework", "guidance", "law", "legal", "policy",
    "government", "federal", "state", "international", "global regulation"])]

/-- The weight one keyword contributes inside the per-category loop: 3.0 when
the lowercased keyword occurs in the lowercased title, 1.0 when it occurs
only elsewhere in the text, 0.0 when it does not occur in the text. -/
def keywordWeight (title text kw : String) : Rat :=
  if strContains text (lowerStr kw) then
    (if strContains (lowerStr title) (lowerStr kw) then 3 else 1)
  else 0

/-- The category_score accumulated over one keyword list. -/
def categoryScore (title text : String) : List String → Rat
  | [] => 0
  | kw :: kws => keywordWeight title text kw + categoryScore title text kws

/-- The matches counter accumulated over one keyword list. -/
def categoryMatches (text : String) : List String → Nat
  | [] => 0
  | kw :: kws =>
      (if strContains text (lowerStr kw) then 1 else 0) + categoryMatches text kws

/-- The category loop of calculate_relevance_score: threads the running
total_score and the category_matches dict (as an insertion-ordered list)
through the categories. -/
def scoreLoop (title text : String) :
    Rat × List (String × Rat) → List (String × List String) → Rat × List (String × Rat)
  | acc, [] => acc
  | acc, (cat, kws) :: rest =>
      if 0 < categoryMatches text kws then
        scoreLoop title text
          (acc.1 + categoryScore title text kws, acc.2 ++ [(cat, categoryScore title text kws)]) rest
      else scoreLoop title text acc rest

/-- Python max over dict keys keyed by value: first maximal key wins. -/
def maxFirst : String × Rat → List (String × Rat) → String
  | best, [] => best.1
  | best, (c, v) :: rest =>
      if best.2 < v then maxFirst (c, v) rest else maxFirst best rest

/-- The primary category: first highest-scoring matched category, none when no
category matched. -/
def argmaxFirst : List (String × Rat) → Option String
  | [] => none
  | p :: rest => some (maxFirst p rest)

/-- Python min of two floats (first argument on ties); stated via the
executable comparison Rat.blt, with b strictly below a exactly when the
second argument is the minimum. -/
def ratMin (a b : Rat) : Rat := if Rat.blt b a then b else a

/-- The non-excluded tail of calculate_relevance_score: category loop,
cross-category 1.5 bonus, 15.0 cap, primary category. -/
def mainScore (title text : String) : Rat × Option String :=
  let r := scoreLoop title text ((0 : Rat), ([] : List (String × Rat))) RELEVANCE_KEYWORDS
  let total := if 1 < r.2.length then r.1 * ((3 : Rat) / 2) else r.1
  (ratMin total 15, argmaxFirst r.2)

/-- NewsScraper.calculate_relevance_score on an entry with the given title and
summary: score plus the category the function assigns (none when it assigns
none). -/
def calculate_relevance_score (title summary : String) : Rat × Option String :=
  let text := lowerStr (title ++ " " ++ summary)
  if price_prediction_keywords.any (fun kw => strContains text kw) then
    ((0 : Rat), none)
  else
    mainScore title text

/-- The naive keyword-weighted sum: every keyword of every category at its
title/summary weight, no bonus and no cap. -/
def sumAll (title text : String) : List (String × List String) → Rat
  | [] => 0
  | (_, kws) :: rest => categoryScore title text kws + sumAll title text rest

/-- Spec-side reading of the naive weighted sum for an entry. -/
def naiveWeightedSum (title summary : String) : Rat :=
  sumAll title (lowerStr (title ++ " " ++ summary)) RELEVANCE_KEYWORDS

/-- Number of topic categories with at least one keyword match. -/
def countMatched (text : String) : List (String × List String) → Nat
  | [] => 0
  | (_, kws) :: rest =>
      (if 0 < categoryMatches text kws then 1 else 0) + countMatched text rest

/-- Spec-side count of distinct matched topic categories for an entry. -/
def matchedCategoryCount (title summary : String) : Nat :=
  countMatched (lowerStr (title ++ " " ++ summary)) RELEVANCE_KEYWORDS

/-- Outcome of one awaited AI collaborator call. -/
inductive AiOutcome where
  | raises (msg : String)
  | returns (resp : String)
deriving DecidableEq

/-- Sort key comparison for get_recent_articles: posted_at descending with a
missing timestamp (empty string key in Python) smallest; `keyGE a b` means a
sorts no later than b. -/
def keyGE : Option Int → Option Int → Bool
  | none, none => true
  | none, some _ => false
  | some _, none => true
  | some x, some y => decide (y ≤ x)

/-- Stable descending insertion for the posted_at sort. -/
def insDesc (x : String × TrackedRecord) :
    List (String × TrackedRecord) → List (String × TrackedRecord)
  | [] => [x]
  | y :: ys => if keyGE y.2.posted_at x.2.posted_at then y :: insDesc x ys else x :: y :: ys

/-- Python sorted with key posted_at and reverse, which is stable. -/
def sortByPostedDesc (l : List (String × TrackedRecord)) :
    List (String × TrackedRecord) :=
  l.foldl (fun acc x => insDesc x acc) []

/-- NewsTracker.get_recent_articles: most recent `limit` records by
posted_at. -/
def get_recent_articles (s : Store) (limit : Nat) : List (String × TrackedRecord) :=
  (sortByPostedDesc s.mem).take limit

/-- bot.py check_similarity_to_recent_news: early-outs when there is nothing
to compare against, then the AI verdict; a raised collaborator error is
caught and resolved to a not-similar verdict with an error reason. -/
def check_similarity_to_recent_news (s : Store) (article_title : String)
    (ai : AiOutcome) : Bool × String :=
  let recent := get_recent_articles s 5
  if recent.isEmpty then (false, "No recent articles to compare against")
  else
    let recent_titles := (recent.take 15).filterMap fun r =>
      if r.2.title != "" && r.2.posted_at.isSome && !r.2.is_dup then
        some r.2.title
      else none
    if recent_titles.isEmpty then (false, "No unique recent articles to compare against")
    else
      match ai with
      | .raises e => (false, "Error in similarity check: " ++ e)
      | .returns resp =>
          if resp != "" && strContains (upperStr resp) "SIMILAR:" then
            (true,
              if strContains resp ":" then pyStrip (afterFirstColon resp)
              else "AI detected similarity")
          else
            (false,
              if strContains resp ":" && strContains (upperStr resp) "UNIQUE:" then
                pyStrip (afterFirstColon resp)
              else "Article appears unique")

/-- bot.py verify_news_relevance: checklist-missing default, empty-response
default, SCORE/REASON parsing with score defaulting to 5, relevance threshold
score at least 5; a raised collaborator error is caught and resolved to
relevant with score 5 and an error reason. -/
def verify_news_relevance (checklist : Option String) (ai : AiOutcome) :
    Bool × Int × String :=
  match checklist with
  | none => (true, 7, "Checklist unavailable - using default approval")
  | some _ =>
      match ai with
      | .raises e => (true, 5, "Error in evaluation: " ++ e)
      | .returns resp =>
          if resp != "" then
            let score : Int := match searchScore resp.data with
              | some n => Int.ofNat n
              | none => 5
            let reason := match searchReason resp.data with
              | some r => r
              | none => "AI evaluation completed"
            (decide (5 ≤ score), score, reason)
          else (true, 6, "AI evaluation unavailable - approved by default")

/-- The store-visible events of one orchestrator cycle. -/
inductive Ev where
  | evMarkPosted (a : Article)
  | evMarkRejected (a : Article) (reason : String)
deriving DecidableEq

/-- news_scraper.py get_single_relevant_article on an already-fetched
candidate list: first non-duplicate candidate is marked as posted and
returned; all duplicates yields no article. -/
def get_single_relevant_article (now : Int) (s : Store) :
    List Article → Option Article × Store × List Ev
  | [] => (none, s, [])
  | a :: rest =>
      if is_duplicate s a then get_single_relevant_article now s rest
      else (some a, markPostedOk now s a, [Ev.evMarkPosted a])

/-- Oracle inputs of one orchestrator cycle: the candidate list each fetch
attempt produces (the RSS fetch, scoring and pre-filter pipeline), the AI
outcome of the similarity and of the relevance call per attempt, and the
loaded relevance checklist prompt. -/
structure CycleEnv where
  fetch : Nat → List Article
  simAi : Nat → AiOutcome
  relAi : Nat → AiOutcome
  checklist : Option String

/-- The attempt loop of bot.py generate_channel_news, returning the accepted
article (none when exhausted), the final store, and the trace of
markPosted/markRejected calls. -/
def runAttempts (env : CycleEnv) (now : Int) :
    Nat → Nat → Store → Option Article × Store × List Ev
  | 0, _, s => (none, s, [])
  | fuel + 1, attempt, s =>
      let r1 := get_single_relevant_article now s (env.fetch attempt)
      match r1.1 with
      | none =>
          let r2 := runAttempts env now fuel (attempt + 1) r1.2.1
          (r2.1, r2.2.1, r1.2.2 ++ r2.2.2)
      | some a =>
          let sim := check_similarity_to_recent_news r1.2.1 a.title (env.simAi attempt)
          if sim.1 then
            let s2 := flagOk now r1.2.1 a sim.2
            let r2 := runAttempts env now fuel (attempt + 1) s2
            (r2.1, r2.2.1, r1.2.2 ++ [Ev.evMarkRejected a sim.2] ++ r2.2.2)
          else
            let rel := verify_news_relevance env.checklist (env.relAi attempt)
            if rel.1 then (some a, r1.2.1, r1.2.2)
            else
              let reason := "Low relevance: " ++ toString rel.2.1 ++ "/10 - " ++ rel.2.2
              let s2 := flagOk now r1.2.1 a reason
              let r2 := runAttempts env now fuel (attempt + 1) s2
              (r2.1, r2.2.1, r1.2.2 ++ [Ev.evMarkRejected a reason] ++ r2.2.2)

/-- bot.py generate_channel_news: up to MAX_ATTEMPTS (5) candidates. -/
def generate_channel_news (env : CycleEnv) (now : Int) (s : Store) :
    Option Article × Store × List Ev :=
  runAttempts env now 5 0 s

/-- The empty store: no in-memory records, no backing file. -/
def emptyStore : Store := { mem := [], file := TrackerFile.missing }

/-- A concrete candidate article used in the concrete evaluations. -/
def a0 : Article :=
  { title := "Gold partnership", url := "https://example.com/1",
    source := "coindesk", published := some 0, summary := "",
    category := "gold" }

/-- A concrete cycle environment: one candidate, every similarity call
answers SIMILAR, every relevance call approves, checklist present. -/
def env0 : CycleEnv :=
  { fetch := fun _ => [a0],
    simAi := fun _ => AiOutcome.returns "SIMILAR: same story",
    relAi := fun _ => AiOutcome.returns "SCORE: 9 | REASON: on topic",
    checklist := some "evaluation prompt" }

/-- A concrete record whose posted_at parses. -/
def recParsed8 : TrackedRecord :=
  { title := "t", source := "s", posted_at := some 8, published_at := none,
    url := "u", category := "c", is_dup := false, similarity_reason := none }

/-- A concrete record whose posted_at is unparseable. -/
def recUnparsed : TrackedRecord :=
  { title := "t", source := "s", posted_at := none, published_at := none,
    url := "u", category := "c", is_dup := false, similarity_reason := none }


/-- Inserting under key k makes lookups see k in addition to the old keys. -/
theorem dictHasKey_dictInsert (k k0 : String) (v : TrackedRecord)
    (l : List (String × TrackedRecord)) :
    dictHasKey k0 (dictInsert k v l) = ((k == k0) || dictHasKey k0 l) := by
  induction l with
  | nil => simp [dictInsert, dictHasKey]
  | cons p rest ih =>
      rcases p with ⟨k1, v1⟩
      by_cases h : (k1 == k) = true
      · have hk : k1 = k := eq_of_beq h
        subst hk
        simp only [dictInsert, if_pos h, dictHasKey]
        cases hx : k1 == k0 <;> simp [hx]
      · have hf : (k1 == k) = false := by
          cases hx : k1 == k
          · rfl
          · exact absurd hx h
        simp only [dictInsert, hf, Bool.false_eq_true, if_false, dictHasKey, ih]
        cases hx : k1 == k0 <;> cases hy : k == k0 <;> simp [hx, hy]

/-- markPostedOk inserts the fingerprint into the in-memory dict. -/
theorem is_duplicate_markPostedOk (now : Int) (s : Store) (a b : Article) :
    is_duplicate (markPostedOk now s a) b =
      ((get_article_hash a == get_article_hash b) || is_duplicate s b) := by
  simp only [is_duplicate, markPostedOk, mark_as_posted, save_tracking_data,
    exceptStore]
  exact dictHasKey_dictInsert _ _ _ _

/-- flagOk writes only the backing file: the in-memory dict that
is_duplicate consults is unchanged. -/
theorem is_duplicate_flagOk (now : Int) (s : Store) (a : Article) (r : String)
    (b : Article) : is_duplicate (flagOk now s a r) b = is_duplicate s b := by
  rcases s with ⟨mem, f⟩
  cases f <;> rfl

/-- is_duplicate after a run of store operations: a markPosted fingerprint
match, or an already-present fingerprint. -/
theorem is_duplicate_runOps (now : Int) (ops : List StoreOp) (b : Article) :
    ∀ s : Store, is_duplicate (runOps now s ops) b =
      ((ops.any fun op => match op with
        | StoreOp.post a => get_article_hash a == get_article_hash b
        | StoreOp.reject _ _ => false) || is_duplicate s b) := by
  induction ops with
  | nil => intro s; simp [runOps]
  | cons op rest ih =>
      intro s
      cases op with
      | post a =>
          rw [runOps, ih, is_duplicate_markPostedOk]
          simp only [List.any_cons]
          cases get_article_hash a == get_article_hash b <;>
            cases rest.any fun op => match op with
              | StoreOp.post a => get_article_hash a == get_article_hash b
              | StoreOp.reject _ _ => false <;>
            cases is_duplicate s b <;> rfl
      | reject a r =>
          rw [runOps, ih, is_duplicate_flagOk]
          simp [List.any_cons]

/-- A category in which no keyword matched contributes a zero
category_score. -/
theorem categoryScore_eq_zero (title text : String) (kws : List String)
    (h : categoryMatches text kws = 0) : categoryScore title text kws = 0 := by
  induction kws with
  | nil => rfl
  | cons kw rest ih =>
      rw [categoryMatches] at h
      by_cases hc : strContains text (lowerStr kw) = true
      · rw [if_pos hc] at h
        omega
      · have hc2 : strContains text (lowerStr kw) = false := by
          cases hx : strContains text (lowerStr kw)
          · rfl
          · exact absurd hx hc
        rw [if_neg hc, Nat.zero_add] at h
        rw [categoryScore, keywordWeight, hc2]
        simp [ih h]

/-- The category loop adds the total weighted sum to the accumulator and
appends one dict entry per matched category. -/
theorem scoreLoop_spec (title text : String) (l : List (String × List String)) :
    ∀ acc : Rat × List (String × Rat),
      (scoreLoop title text acc l).1 = acc.1 + sumAll title text l ∧
      (scoreLoop title text acc l).2.length = acc.2.length + countMatched text l := by
  induction l with
  | nil => intro acc; simp [scoreLoop, sumAll, countMatched]
  | cons p rest ih =>
      intro acc
      rcases p with ⟨cat, kws⟩
      rw [scoreLoop, sumAll, countMatched]
      by_cases h : 0 < categoryMatches text kws
      · rw [if_pos h]
        have hi := ih (acc.1 + categoryScore title text kws,
          acc.2 ++ [(cat, categoryScore title text kws)])
        refine ⟨?_, ?_⟩
        · rw [hi.1]; ring
        · rw [hi.2, if_pos h]
          simp [List.length_append]
          omega
      · rw [if_neg h]
        have h0 : categoryMatches text kws = 0 := by omega
        have hi := ih acc
        refine ⟨?_, ?_⟩
        · rw [hi.1, categoryScore_eq_zero title text kws h0]; ring
        · rw [hi.2, if_neg h]
          omega

/-- The first component of mainScore in terms of the naive sum and the
matched-category count. -/
theorem mainScore_fst (title text : String) :
    (mainScore title text).1 =
      ratMin (if 1 < countMatched text RELEVANCE_KEYWORDS
        then sumAll title text RELEVANCE_KEYWORDS * ((3 : Rat) / 2)
        else sumAll title text RELEVANCE_KEYWORDS) 15 := by
  have hs := scoreLoop_spec title text RELEVANCE_KEYWORDS
    ((0 : Rat), ([] : List (String × Rat)))
  simp only [mainScore, hs.1, hs.2, List.length_nil, Nat.zero_add, zero_add]

/-- Self-membership after a dict insert. -/
theorem mem_dictInsert_self (k : String) (v : TrackedRecord)
    (l : List (String × TrackedRecord)) : (k, v) ∈ dictInsert k v l := by
  induction l with
  | nil => simp [dictInsert]
  | cons p rest ih =>
      rcases p with ⟨k1, v1⟩
      by_cases h : (k1 == k) = true
      · have hk : k1 = k := eq_of_beq h
        subst hk
        simp [dictInsert, if_pos h]
      · have hf : (k1 == k) = false := by
          cases hx : k1 == k
          · rfl
          · exact absurd hx h
        simp [dictInsert, hf, ih]

/-- An entry holding the inserted value survives any insert of that same
value. -/
theorem mem_dictInsert_of_mem (k k2 : String) (v : TrackedRecord)
    (l : List (String × TrackedRecord)) (h : (k, v) ∈ l) :
    (k, v) ∈ dictInsert k2 v l := by
  induction l with
  | nil => simp at h
  | cons p rest ih =>
      rcases p with ⟨k1, v1⟩
      by_cases hb : (k1 == k2) = true
      · have hk : k1 = k2 := eq_of_beq hb
        subst hk
        simp only [dictInsert, if_pos hb]
        rcases List.mem_cons.mp h with h1 | h1
        · have hk2 : k = k1 := congrArg Prod.fst h1
          subst hk2
          exact List.mem_cons_self _ _
        · exact List.mem_cons_of_mem _ h1
      · have hf : (k1 == k2) = false := by
          cases hx : k1 == k2
          · rfl
          · exact absurd hx hb
        simp only [dictInsert, hf, Bool.false_eq_true, if_false]
        rcases List.mem_cons.mp h with h1 | h1
        · rw [h1]; exact List.mem_cons_self _ _
        · exact List.mem_cons_of_mem _ (ih h1)

/-- Membership in the legacy-migration fold: any fingerprint of the list ends
up mapped to the placeholder record. -/
theorem mem_legacyFold (v : TrackedRecord) (k : String) :
    ∀ (hs : List String) (acc : List (String × TrackedRecord)),
      ((k, v) ∈ acc ∨ k ∈ hs) →
      (k, v) ∈ hs.foldl (fun a h => dictInsert h v a) acc := by
  intro hs
  induction hs with
  | nil =>
      intro acc h
      rcases h with h | h
      · exact h
      · simp at h
  | cons h0 rest ih =>
      intro acc h
      rw [List.foldl_cons]
      rcases h with h | h
      · exact ih _ (Or.inl (mem_dictInsert_of_mem k h0 v acc h))
      · rcases List.mem_cons.mp h with h1 | h1
        · subst h1
          exact ih _ (Or.inl (mem_dictInsert_self k v acc))
        · exact ih _ (Or.inr h1)

/-- A record surviving cleanup whose timestamp parses is within the 7-day
horizon. -/
theorem mem_cleanup_posted {now t : Int} {l : List (String × TrackedRecord)}
    {h : String} {m : TrackedRecord}
    (hmem : (h, m) ∈ cleanup_old_entries now l) (hpa : m.posted_at = some t) :
    now - 7 ≤ t := by
  have hp := (List.mem_filter.mp hmem).2
  simp only [hpa] at hp
  exact of_decide_eq_true hp

/-- Claim C1 (refuted by evaluating the code): in an orchestrator cycle whose
single repeated candidate is judged SIMILAR by the collaborator, the cycle
ends Exhausted (no article returned) yet the trace contains a markPosted call
for the similarity-rejected candidate, because get_single_relevant_article
calls mark_as_posted on every candidate it hands out, before the similarity
and relevance checks run. -/
theorem C1_markPosted_before_checks :
    (generate_channel_news env0 0 emptyStore).1 = none ∧
    (generate_channel_news env0 0 emptyStore).2.2 =
      [Ev.evMarkPosted a0, Ev.evMarkRejected a0 "same story"] := by
  constructor
  · decide
  · decide

/-- Claim C2 counterexample: an article passed only to markRejected
(flag_article_as_duplicate) is not seen by is_duplicate, because the flag is
written only to the backing file while is_duplicate consults the in-memory
dict. -/
theorem C2_counterexample :
    is_duplicate (flagOk 0 emptyStore a0 "duplicate of recent story") a0 = false := by
  decide

/-- Claim C2 as amended: over any history of store operations starting from
the empty store, is_duplicate answers true exactly when some markPosted call
had the same title-and-URL fingerprint; markRejected calls leave the
in-memory view unchanged (in particular the markPosted round trip holds, and
is_duplicate is false whenever no markPosted fingerprint matches). -/
theorem C2_membership_characterization (now : Int) (ops : List StoreOp)
    (b : Article) :
    is_duplicate (runOps now emptyStore ops) b =
      (ops.any fun op => match op with
        | StoreOp.post a => get_article_hash a == get_article_hash b
        | StoreOp.reject _ _ => false) := by
  rw [is_duplicate_runOps now ops b emptyStore]
  simp [is_duplicate, emptyStore, dictHasKey]

/-- Claim C3: any entry whose lowercased title-plus-summary text contains a
phrase of the price-speculation exclusion list scores exactly 0, whatever
else it matches. -/
theorem C3_price_speculation_scores_zero (title summary : String)
    (h : price_prediction_keywords.any
      (fun kw => strContains (lowerStr (title ++ " " ++ summary)) kw) = true) :
    (calculate_relevance_score title summary).1 = 0 := by
  simp [calculate_relevance_score, h]

/-- Claim C3 witness: a price-prediction headline also matching the gold
topic scores 0. -/
theorem C3_witness :
    price_prediction_keywords.any
      (fun kw => strContains
        (lowerStr ("Bitcoin price prediction" ++ " " ++ "gold rally")) kw) = true ∧
    (calculate_relevance_score "Bitcoin price prediction" "gold rally").1 = 0 :=
  ⟨by decide, C3_price_speculation_scores_zero "Bitcoin price prediction" "gold rally" (by decide)⟩

/-- Claim C4: a non-excluded entry matching at least two distinct topic
categories scores the naive keyword-weighted sum times 1.5, capped at 15
after the multiplication. -/
theorem C4_cross_category_bonus (title summary : String)
    (h1 : price_prediction_keywords.any
      (fun kw => strContains (lowerStr (title ++ " " ++ summary)) kw) = false)
    (h2 : 2 ≤ matchedCategoryCount title summary) :
    (calculate_relevance_score title summary).1 =
      ratMin (naiveWeightedSum title summary * ((3 : Rat) / 2)) 15 := by
  have hc : matchedCategoryCount title summary =
      countMatched (lowerStr (title ++ " " ++ summary)) RELEVANCE_KEYWORDS := rfl
  have hlt : 1 < countMatched (lowerStr (title ++ " " ++ summary)) RELEVANCE_KEYWORDS := by
    rw [hc] at h2; omega
  simp only [calculate_relevance_score, h1, Bool.false_eq_true, if_false,
    mainScore_fst, if_pos hlt]
  rfl

/-- Claim C4 witness: an entry matching the rwa and gold categories in the
title scores min of 6 times 1.5 and 15. -/
theorem C4_witness :
    price_prediction_keywords.any
      (fun kw => strContains (lowerStr ("Gold tokenization" ++ " " ++ "")) kw) = false ∧
    2 ≤ matchedCategoryCount "Gold tokenization" "" ∧
    (calculate_relevance_score "Gold tokenization" "").1 =
      ratMin (naiveWeightedSum "Gold tokenization" "" * ((3 : Rat) / 2)) 15 :=
  ⟨by decide, by decide, C4_cross_category_bonus "Gold tokenization" "" (by decide) (by decide)⟩

/-- Claim C5: inside the scorer, a keyword matched in the title contributes
weight 3 and the same keyword found only outside the title contributes
weight 1, an exact factor of 3; instantiated on the full scorer, a
title-only gold match scores three times a summary-only gold match. -/
theorem C5_title_triple_weight :
    (∀ (t1 t2 x1 x2 kw : String),
      strContains x1 (lowerStr kw) = true →
      strContains x2 (lowerStr kw) = true →
      strContains (lowerStr t1) (lowerStr kw) = true →
      strContains (lowerStr t2) (lowerStr kw) = false →
      keywordWeight t1 x1 kw = 3 * keywordWeight t2 x2 kw) ∧
    (calculate_relevance_score "Gold" "").1 =
      3 * (calculate_relevance_score "x" "gold").1 := by
  constructor
  · intro t1 t2 x1 x2 kw h1 h2 h3 h4
    rw [keywordWeight, keywordWeight, if_pos h1, if_pos h2, if_pos h3, h4]
    norm_num
  · with_unfolding_all decide

/-- Claim C5 witness: the 3-to-1 weight ratio at a concrete keyword. -/
theorem C5_witness :
    strContains (lowerStr "Gold") (lowerStr "gold") = true ∧
    keywordWeight "Gold" "gold news" "gold" = 3 * keywordWeight "x" "x gold" "gold" :=
  ⟨by decide,
    C5_title_triple_weight.1 "Gold" "x" "gold news" "x gold" "gold"
      (by decide) (by decide) (by decide) (by decide)⟩

/-- Claim C6: immediately after any load, every surviving record whose post
timestamp parses is within the 7-day retention horizon; and a record with an
unparseable timestamp survives the load of a modern file exactly when the
loaded dict does not hold more than 1000 records. -/
theorem C6_retention_after_load :
    (∀ (now t : Int) (f : TrackerFile) (h : String) (m : TrackedRecord),
      (h, m) ∈ load_tracking_data now f → m.posted_at = some t → now - 7 ≤ t) ∧
    (∀ (now : Int) (rs : List (String × TrackedRecord)) (h : String)
      (m : TrackedRecord), m.posted_at = none →
      ((h, m) ∈ load_tracking_data now (TrackerFile.modern rs) ↔
        (h, m) ∈ rs ∧ rs.length ≤ 1000)) := by
  constructor
  · intro now t f h m hmem hpa
    cases f with
    | missing => simp [load_tracking_data] at hmem
    | corrupt => simp [load_tracking_data] at hmem
    | legacy hs =>
        rw [load_tracking_data] at hmem
        exact mem_cleanup_posted hmem hpa
    | modern rs =>
        rw [load_tracking_data] at hmem
        exact mem_cleanup_posted hmem hpa
  · intro now rs h m hpa
    simp [load_tracking_data, cleanup_old_entries, List.mem_filter, hpa]

/-- Claim C6 witness: a 2-day-old record survives a load at day 10, and an
unparseable record in a 1-record store survives exactly because the store
holds at most 1000 records. -/
theorem C6_witness :
    ((10 : Int) - 7 ≤ 8) ∧
    (("k", recUnparsed) ∈ load_tracking_data 10 (TrackerFile.modern [("k", recUnparsed)]) ↔
      ("k", recUnparsed) ∈ [("k", recUnparsed)] ∧
        ([("k", recUnparsed)] : List (String × TrackedRecord)).length ≤ 1000) :=
  ⟨C6_retention_after_load.1 10 8 (TrackerFile.modern [("j", recParsed8)]) "j"
      recParsed8 (by decide) rfl,
    C6_retention_after_load.2 10 [("k", recUnparsed)] "k" recUnparsed rfl⟩

/-- Claim C7: loading a legacy bare-fingerprint-list file yields, for every
fingerprint in the list, a record with the placeholder metadata (title
Legacy Article, source unknown, load-time post timestamp, no publish
timestamp); loading with a missing backing file yields the empty store. -/
theorem C7_legacy_migration :
    (∀ (now : Int) (hashes : List String) (h : String), h ∈ hashes →
      (h, legacyRecord now) ∈ load_tracking_data now (TrackerFile.legacy hashes)) ∧
    (∀ now : Int, load_tracking_data now TrackerFile.missing = []) := by
  constructor
  · intro now hashes h hmem
    rw [load_tracking_data, cleanup_old_entries]
    refine List.mem_filter.mpr ⟨mem_legacyFold (legacyRecord now) h hashes [] (Or.inr hmem), ?_⟩
    simp only [legacyRecord]
    exact decide_eq_true (by omega)
  · intro now
    rfl

/-- Claim C7 witness: one legacy fingerprint migrates to the placeholder
record, and a missing file loads as the empty store. -/
theorem C7_witness :
    ("abc" ∈ (["abc"] : List String)) ∧
    ("abc", legacyRecord 5) ∈ load_tracking_data 5 (TrackerFile.legacy ["abc"]) ∧
    load_tracking_data 5 TrackerFile.missing = [] :=
  ⟨by decide, C7_legacy_migration.1 5 ["abc"] "abc" (by decide), C7_legacy_migration.2 5⟩

/-- Claim C8 counterexample: with a failing file write, mark_as_posted and
flag_article_as_duplicate both return normally (the handler logs and
absorbs the error) instead of propagating a hard failure. -/
theorem C8_counterexample :
    exceptIsOk (mark_as_posted 0 (Except.error "disk full") emptyStore a0) = true ∧
    exceptIsOk (flag_article_as_duplicate 0 (Except.error "disk full")
      { mem := [], file := TrackerFile.modern [] } a0 "reason") = true :=
  ⟨rfl, rfl⟩

/-- Claim C8 as amended: a store write failure during markPosted or
markRejected is caught inside the operation, logged, and absorbed; the
caller always observes a normal return, never a propagated exception. -/
theorem C8_write_failures_absorbed (now : Int) (w : FsWrite) (s : Store)
    (a : Article) (r : String) :
    exceptIsOk (mark_as_posted now w s a) = true ∧
    exceptIsOk (flag_article_as_duplicate now w s a r) = true := by
  refine ⟨?_, ?_⟩
  · cases w <;> rfl
  · rcases s with ⟨mem, f⟩
    cases f <;> cases w <;> rfl

/-- Claim C9 counterexample: a raised collaborator error makes
verify_news_relevance resolve to score 5, not the claimed score 6 (score 6
is the empty-response default). -/
theorem C9_counterexample :
    ¬ (verify_news_relevance (some "evaluation prompt")
        (AiOutcome.raises "boom")).2.1 = 6 := by
  decide

/-- Claim C9 as amended: a raised collaborator error resolves the similarity
check to a not-similar verdict and the relevance check to relevant with
score 5 and an error-reporting reason; the score-6 approved-by-default
result arises when the collaborator returns an empty response instead of
raising. -/
theorem C9_permissive_defaults (msg prompt title : String) (s : Store) :
    (check_similarity_to_recent_news s title (AiOutcome.raises msg)).1 = false ∧
    verify_news_relevance (some prompt) (AiOutcome.raises msg) =
      (true, 5, "Error in evaluation: " ++ msg) ∧
    verify_news_relevance (some prompt) (AiOutcome.returns "") =
      (true, 6, "AI evaluation unavailable - approved by default") := by
  refine ⟨?_, rfl, by simp [verify_news_relevance]⟩
  simp only [check_similarity_to_recent_news]
  split
  · rfl
  · split
    · rfl
    · rfl

/-- Claim C10: a nonempty relevance response with no parseable SCORE token
defaults the score to 5, which meets the at-least-5 relevance threshold, so
the article is judged relevant. -/
theorem C10_malformed_score_judged_relevant (prompt resp : String)
    (h1 : resp ≠ "") (h2 : searchScore resp.data = none) :
    (verify_news_relevance (some prompt) (AiOutcome.returns resp)).1 = true ∧
    (verify_news_relevance (some prompt) (AiOutcome.returns resp)).2.1 = 5 := by
  have hb : (resp != "") = true := by
    simp [bne_iff_ne, h1]
  simp [verify_news_relevance, hb, h2]

/-- Claim C10 witness: a concrete malformed response is approved with the
default score 5. -/
theorem C10_witness :
    ("hello" ≠ "") ∧ searchScore "hello".data = none ∧
    (verify_news_relevance (some "p") (AiOutcome.returns "hello")).1 = true ∧
    (verify_news_relevance (some "p") (AiOutcome.returns "hello")).2.1 = 5 :=
  ⟨by decide, by decide,
    (C10_malformed_score_judged_relevant "p" "hello" (by decide) (by decide)).1,
    (C10_malformed_score_judged_relevant "p" "hello" (by decide) (by decide)).2⟩
